import Mathlib

/-!
Verification of the pinemcp database-adapter layer: a shallow embedding of
the adapter contract (query validation, safe execution, transaction state
machines, result normalization, error normalization), the connection
registry, and the per-backend adapters, with theorems settling the frozen
claims about them.

Conventions of the embedding:
* JavaScript runtime values are modelled by `JSVal` (with JS truthiness).
* A thrown JS value is a `JSError`: either an `Error` instance carrying a
  message, or a raw non-`Error` value.
* Stateful methods are modelled as explicit state passing; a method that can
  both mutate state and throw returns a `JSResult`, which carries the
  post-state on both the ok and the error path.
* Calls into native database drivers (pg, mysql2, sqlite3, redis, mongodb,
  cassandra-driver, mssql, AWS SDK) are suspension points outside the
  repository's code; each such call is modelled as an explicit input (an
  oracle value describing what the native call returned or threw).
-/

namespace PineMCP

/-- A JavaScript runtime value, as far as the adapter layer inspects one.
Arrays are nested; object contents are kept opaque apart from field names. -/
inductive JSVal where
  | vNull : JSVal
  | vUndefined : JSVal
  | vBool : Bool → JSVal
  | vNum : Int → JSVal
  | vStr : String → JSVal
  | vArr : List JSVal → JSVal
  | vObj : List (String × JSVal) → JSVal
  deriving Repr

/-- JS truthiness (`if (v)`).  `null`, `undefined`, `false`, `0` and the
empty string are falsy; arrays and objects are always truthy. -/
def JSVal.truthy : JSVal → Bool
  | .vNull => false
  | .vUndefined => false
  | .vBool b => b
  | .vNum n => n != 0
  | .vStr s => !s.isEmpty
  | .vArr _ => true
  | .vObj _ => true

/-- `Array.isArray(v)`. -/
def JSVal.isArray : JSVal → Bool
  | .vArr _ => true
  | _ => false

/-- `typeof v === 'string'`. -/
def JSVal.isString : JSVal → Bool
  | .vStr _ => true
  | _ => false

/-- JS `String(v)` coercion, for the values the adapter layer stringifies. -/
def JSVal.jsToString : JSVal → String
  | .vNull => "null"
  | .vUndefined => "undefined"
  | .vBool true => "true"
  | .vBool false => "false"
  | .vNum n => toString n
  | .vStr s => s
  | .vArr xs => String.intercalate "," (xs.attach.map (fun x => x.1.jsToString))
  | .vObj _ => "[object Object]"
decreasing_by
  have h := List.sizeOf_lt_of_mem x.2
  simp only [JSVal.vArr.sizeOf_spec]
  omega

/-- A thrown JS value: an `Error` instance (identified by its message) or a
raw non-`Error` value (`instanceof Error` is false). -/
inductive JSError where
  | err : String → JSError
  | raw : JSVal → JSError
  deriving Repr

/-- JS `String(e)` on a thrown value (template-literal interpolation):
`Error` instances render as `Error: message`. -/
def JSError.jsToString : JSError → String
  | .err m => "Error: " ++ m
  | .raw v => v.jsToString

/-- The shape of every adapter's `handleError`: an `Error` instance passes
through unchanged, anything else becomes an `Error` with a backend-prefixed
message.  Each adapter instantiates `backend` with its own name. -/
def handleErrorFor (backend : String) : JSError → JSError
  | .err m => .err m
  | .raw v => .err (backend ++ " error: " ++ v.jsToString)

/-- `PostgreSQLAdapter.handleError`. -/
def pgHandleError : JSError → JSError := handleErrorFor "PostgreSQL"

/-- `MySQLAdapter.handleError`. -/
def mysqlHandleError : JSError → JSError := handleErrorFor "MySQL"

/-- `SQLiteAdapter.handleError`. -/
def sqliteHandleError : JSError → JSError := handleErrorFor "SQLite"

/-- `RedisAdapter.handleError`. -/
def redisHandleError : JSError → JSError := handleErrorFor "Redis"

/-- `MongoDBAdapter.handleError`. -/
def mongoHandleError : JSError → JSError := handleErrorFor "MongoDB"

/-- `CassandraAdapter.handleError`. -/
def cassandraHandleError : JSError → JSError := handleErrorFor "Cassandra"

/-- `MSSQLAdapter.handleError`. -/
def mssqlHandleError : JSError → JSError := handleErrorFor "MSSQL"

/-- `DynamoDBAdapter.handleError`. -/
def dynamoHandleError : JSError → JSError := handleErrorFor "DynamoDB"

/-- A normalized field descriptor (`FieldInfo`). -/
structure FieldInfo where
  name : String
  dataType : String
  nullable : Bool
  deriving Repr

/-- The normalized query-result container (`QueryResult`): ordered rows,
a row count, and field descriptors. -/
structure QueryResult where
  rows : List JSVal
  rowCount : Int
  fields : List FieldInfo
  deriving Repr

/-- Result of a stateful method that can throw: both branches carry the
post-state, since in JS an exception does not undo prior mutation. -/
inductive JSResult (α σ : Type) where
  | ok : α → σ → JSResult α σ
  | err : JSError → σ → JSResult α σ
  deriving Repr

/-! ## Query validation (`BaseDatabaseAdapter.validateQuery` / `validateParameters`) -/

/-- Characters matched by the JS regex class `\s` (ASCII range). -/
def isJsWS (c : Char) : Bool :=
  c = ' ' || c = '\t' || c = '\n' || c = '\r' || c = '\x0b' || c = '\x0c'

/-- Case-insensitively strip a literal keyword from the front of a character
list, returning the remainder on a match. -/
def stripCI : List Char → List Char → Option (List Char)
  | [], cs => some cs
  | _ :: _, [] => none
  | k :: ks, c :: cs => if c.toLower = k.toLower then stripCI ks cs else none

/-- After a `;` was consumed: does the remainder match `\s*kw1\s+kw2`
(case-insensitively), as in the deny-list regexes? -/
def matchKwPair (kw1 kw2 : List Char) (cs : List Char) : Bool :=
  match stripCI kw1 (cs.dropWhile isJsWS) with
  | none => false
  | some [] => false
  | some (c :: r2) => isJsWS c && (stripCI kw2 (r2.dropWhile isJsWS)).isSome

/-- Scan for an occurrence of `;\s*kw1\s+kw2` anywhere in the character
list, as `RegExp.test` does for the deny-list patterns. -/
def scanDanger (kw1 kw2 : List Char) : List Char → Bool
  | [] => false
  | c :: rest => (c = ';' && matchKwPair kw1 kw2 rest) || scanDanger kw1 kw2 rest

/-- The deny-list of `validateQuery` (`dangerousPatterns`): keyword pairs of
the five case-insensitive regexes `;\s*drop\s+table`, `;\s*delete\s+from`,
`;\s*truncate\s+table`, `;\s*alter\s+table`, `;\s*drop\s+database`. -/
def dangerousPairs : List (String × String) :=
  [("drop", "table"), ("delete", "from"), ("truncate", "table"),
   ("alter", "table"), ("drop", "database")]

/-- Does the query text match one of the deny-list patterns? -/
def isDangerousQuery (q : String) : Bool :=
  dangerousPairs.any (fun p => scanDanger p.1.data p.2.data q.data)

/-- The string payload of a JS value known to be a string. -/
def JSVal.strVal : JSVal → String
  | .vStr s => s
  | _ => ""

/-- `BaseDatabaseAdapter.validateQuery`: rejects a falsy or non-string query
(`!query || typeof query !== 'string'`), then tests the deny-list. -/
def validateQuery (query : JSVal) : Except JSError Unit :=
  if !query.truthy || !query.isString then
    .error (.err "Query must be a non-empty string")
  else if isDangerousQuery query.strVal then
    .error (.err "Potentially dangerous query detected")
  else
    .ok ()

/-- `BaseDatabaseAdapter.validateParameters`: throws only when the argument
is truthy and not an array (`if (parameters && !Array.isArray(parameters))`).
An absent argument is `undefined`. -/
def validateParameters (parameters : JSVal) : Except JSError Unit :=
  if parameters.truthy && !parameters.isArray then
    .error (.err "Parameters must be an array")
  else
    .ok ()

/-! ## Safe execution (`BaseDatabaseAdapter.safeExecuteQuery`) -/

/-- A call reaching the backend: `connect()` or `executeQuery(...)`. -/
inductive BackendCall where
  | connect : BackendCall
  | execute : BackendCall
  deriving DecidableEq, Repr

/-- `BaseDatabaseAdapter.safeExecuteQuery`: validate query → validate
parameters → `ensureConnection()` (connect only when not connected) →
`executeQuery`; every throw in that chain is routed through the adapter's
`handleError`.  Returns the outcome together with the ordered list of
backend calls made.  `connectR`/`execR` are oracles for the two native
calls. -/
def safeExecuteQuery (handleError : JSError → JSError)
    (query parameters : JSVal) (connected : Bool)
    (connectR : Except JSError Unit) (execR : Except JSError QueryResult) :
    Except JSError QueryResult × List BackendCall :=
  match validateQuery query with
  | .error e => (.error (handleError e), [])
  | .ok _ =>
    match validateParameters parameters with
    | .error e => (.error (handleError e), [])
    | .ok _ =>
      if connected then
        match execR with
        | .error e => (.error (handleError e), [.execute])
        | .ok r => (.ok r, [.execute])
      else
        match connectR with
        | .error e => (.error (handleError e), [.connect])
        | .ok _ =>
          match execR with
          | .error e => (.error (handleError e), [.connect, .execute])
          | .ok r => (.ok r, [.connect, .execute])

/-! ## Result assembly of each adapter's `executeQuery`

Each `X_buildResult` is the `return { rows, rowCount, fields }` statement of
the corresponding adapter's `executeQuery`, applied to what the native
driver call produced. -/

/-- JS `x || 0` on a nullable number. -/
def jsNumOr0 : Option Int → Int
  | none => 0
  | some n => n

/-- Field names of a JS object (`Object.keys`). -/
def objKeys : JSVal → List String
  | .vObj fs => fs.map (fun p => p.1)
  | _ => []

/-- A cassandra-driver column descriptor (its `type` already rendered by
`getCassandraType`, whose driver-class dispatch is outside this model). -/
structure CassColumn where
  name : String
  dataType : String
  deriving Repr

/-- A cassandra-driver row: `row.get(name)` lookups. -/
structure CassRow where
  entries : List (String × JSVal)
  deriving Repr

/-- `row.get(name)` (`undefined` when absent).  `convertCassandraValue`,
which only rewrites driver-specific classes to strings, is the identity on
the values modelled here. -/
def cassRowGet (r : CassRow) (n : String) : JSVal :=
  match r.entries.find? (fun p => p.1 = n) with
  | some p => p.2
  | none => .vUndefined

/-- `column.name || 'column_' + columnIndex`. -/
def cassColName (i : Nat) (c : CassColumn) : String :=
  if c.name.isEmpty then "column_" ++ toString i else c.name

/-- One row object built by `CassandraAdapter.executeQuery`:
`{ _row_id: index }` then one entry per column. -/
def cassandraBuildRow (cols : List CassColumn) (idx : Nat) (r : CassRow) : JSVal :=
  .vObj (("_row_id", .vNum idx) ::
    cols.enum.map (fun p => (cassColName p.1 p.2, cassRowGet r p.2.name)))

/-- `CassandraAdapter.executeQuery` result assembly: `rowCount: rows.length`. -/
def cassandraBuildResult (nativeRows : List CassRow) (cols : List CassColumn) :
    QueryResult :=
  let rows := nativeRows.enum.map (fun p => cassandraBuildRow cols p.1 p.2)
  { rows := rows
    rowCount := rows.length
    fields := cols.map (fun c => ⟨c.name, c.dataType, true⟩) }

/-- A mysql2 field packet (only what the adapter reads). -/
structure MyField where
  name : String
  dataType : String
  notNull : Bool
  deriving Repr

/-- `MySQLAdapter.executeQuery` result assembly: when the driver's `rows` is
not an array (OkPacket of a DML statement) both `rows` and `rowCount`
degrade to empty/0; otherwise `rowCount` is `rows.length`. -/
def mysqlBuildResult (rowsVal : JSVal) (fields : Option (List MyField)) :
    QueryResult :=
  { rows := match rowsVal with | .vArr xs => xs | _ => []
    rowCount := match rowsVal with | .vArr xs => xs.length | _ => 0
    fields := (fields.getD []).map (fun f => ⟨f.name, f.dataType, !f.notNull⟩) }

/-- `PostgreSQLAdapter.executeQuery` result assembly:
`rowCount: result.rowCount || 0` — the native driver's count, which for DML
statements differs from `rows.length`. -/
def pgBuildResult (nativeRows : List JSVal) (nativeRowCount : Option Int)
    (fields : List FieldInfo) : QueryResult :=
  { rows := nativeRows
    rowCount := jsNumOr0 nativeRowCount
    fields := fields }

/-- `SQLiteAdapter.executeQuery` result assembly (sqlite3 always passes an
array to the `all` callback): `rowCount: rows.length`; fields are `[]` when
the LIMIT-0 probe failed, else derived from the first row's keys. -/
def sqliteBuildResult (rows : List JSVal) (colErr : Bool) : QueryResult :=
  { rows := rows
    rowCount := rows.length
    fields :=
      if colErr then []
      else match rows with
        | [] => []
        | r :: _ => (objKeys r).map (fun k => ⟨k, "TEXT", true⟩) }

/-- `RedisAdapter.executeQuery` result assembly: an array reply becomes one
`{ key, value }` row per element with `rowCount` its length; any other reply
becomes the single row `{ result }` with `rowCount` 1. -/
def redisBuildResult (result : JSVal) : QueryResult :=
  match result with
  | .vArr xs =>
    { rows := xs.enum.map (fun p => .vObj [("key", .vNum p.1), ("value", p.2)])
      rowCount := xs.length
      fields := [⟨"result", "string", true⟩] }
  | v =>
    { rows := [.vObj [("result", v)]]
      rowCount := 1
      fields := [⟨"result", "string", true⟩] }

/-- Field list of a JS object's values (`MongoDBAdapter`). -/
def objFields : JSVal → List (String × JSVal)
  | .vObj fs => fs
  | _ => []

/-- `MongoDBAdapter.executeQuery` result assembly: a non-array driver result
is wrapped in a one-element list; rows get `{ _id: index, ...row }` (object
spread, later keys shadowing earlier ones); `rowCount: rows.length`. -/
def mongoBuildResult (result : JSVal) : QueryResult :=
  let rows := match result with | .vArr xs => xs | v => [v]
  { rows := rows.enum.map (fun p => .vObj (("_id", .vNum p.1) :: objFields p.2))
    rowCount := rows.length
    fields := match rows with
      | [] => []
      | r :: _ => (objKeys r).map (fun k => ⟨k, "object", true⟩) }

/-- `MSSQLAdapter.executeQuery` result assembly:
`rowCount: result.rowsAffected[0] || 0` — the native driver's affected-rows
counter, not the recordset length.  `mapFields` over the driver's column
metadata is passed through as `cols`. -/
def mssqlBuildResult (recordset : Option (List JSVal)) (rowsAffected : List Int)
    (cols : List FieldInfo) : QueryResult :=
  { rows := recordset.getD []
    rowCount := jsNumOr0 rowsAffected.head?
    fields := cols }

/-- `DynamoDBAdapter.getDynamoDBValueType`. -/
def getDynamoDBValueType : JSVal → String
  | .vStr _ => "String"
  | .vNum _ => "Number"
  | .vBool _ => "Boolean"
  | .vArr _ => "List"
  | .vObj _ => "Map"
  | .vNull => "Null"
  | .vUndefined => "Unknown"

/-- `DynamoDBAdapter.mapFields` on `result.Items?.[0] || {}`. -/
def dynamoMapFields (item : JSVal) : List FieldInfo :=
  match item with
  | .vObj fs => fs.map (fun p => ⟨p.1, getDynamoDBValueType p.2, true⟩)
  | _ => []

/-- `DynamoDBAdapter.executeQuery` result assembly (scan and query branches
are identical): `rows: result.Items || []`, `rowCount: result.Count || 0` —
the native `Count`, not the length of `Items`. -/
def dynamoBuildResult (items : Option (List JSVal)) (count : Option Int) :
    QueryResult :=
  { rows := items.getD []
    rowCount := jsNumOr0 count
    fields := dynamoMapFields (((items.getD []).head?).getD (.vObj [])) }

/-! ## Transaction state machines, per adapter

Each adapter's transaction-relevant fields and its
`beginTransaction`/`commitTransaction`/`rollbackTransaction`/
`isInTransaction` methods, with native driver calls as oracles. -/

/-- The V8 message of the `TypeError` thrown when a method is read off a
null handle (the compiled form of `this.pool!.x(...)` with a null pool). -/
def typeErrorNullRead (field : String) : JSError :=
  .err ("Cannot read properties of null (reading \x27" ++ field ++ "\x27)")

/-- `RedisAdapter` transaction fields. -/
structure RedisTxState where
  inTransaction : Bool
  transactionCommands : List String
  deriving Repr, DecidableEq

/-- `RedisAdapter.beginTransaction`. -/
def redisBeginTransaction (s : RedisTxState) : JSResult Unit RedisTxState :=
  if s.inTransaction then .err (.err "Transaction already in progress") s
  else .ok () { inTransaction := true, transactionCommands := [] }

/-- `RedisAdapter.commitTransaction`. -/
def redisCommitTransaction (s : RedisTxState) : JSResult Unit RedisTxState :=
  if !s.inTransaction then .err (.err "No transaction in progress") s
  else .ok () { inTransaction := false, transactionCommands := [] }

/-- `RedisAdapter.rollbackTransaction`. -/
def redisRollbackTransaction (s : RedisTxState) : JSResult Unit RedisTxState :=
  if !s.inTransaction then .err (.err "No transaction in progress") s
  else .ok () { inTransaction := false, transactionCommands := [] }

/-- `RedisAdapter.isInTransaction`. -/
def redisIsInTransaction (s : RedisTxState) : Bool := s.inTransaction

/-- `SQLiteAdapter` transaction-relevant fields (`db` is handle non-null). -/
structure SqliteState where
  db : Bool
  inTransaction : Bool
  deriving Repr, DecidableEq

/-- `SQLiteAdapter.executeQuery` connection guard and native call
(`execR` is the native `db.all` outcome; a native error is rejected through
`handleError`). -/
def sqliteExecRaw (s : SqliteState) (execR : Except JSError Unit) :
    JSResult Unit SqliteState :=
  if !s.db then .err (.err "Database not connected") s
  else match execR with
    | .error e => .err (sqliteHandleError e) s
    | .ok _ => .ok () s

/-- `SQLiteAdapter.beginTransaction`: guarded flag, then
`executeQuery('BEGIN TRANSACTION')`, then set the flag. -/
def sqliteBeginTransaction (s : SqliteState) (execR : Except JSError Unit) :
    JSResult Unit SqliteState :=
  if s.inTransaction then .err (.err "Transaction already in progress") s
  else match sqliteExecRaw s execR with
    | .err e s1 => .err e s1
    | .ok _ s1 => .ok () { s1 with inTransaction := true }

/-- `SQLiteAdapter.commitTransaction`: the flag stays set when the native
`COMMIT` throws. -/
def sqliteCommitTransaction (s : SqliteState) (execR : Except JSError Unit) :
    JSResult Unit SqliteState :=
  if !s.inTransaction then .err (.err "No transaction in progress") s
  else match sqliteExecRaw s execR with
    | .err e s1 => .err e s1
    | .ok _ s1 => .ok () { s1 with inTransaction := false }

/-- `SQLiteAdapter.rollbackTransaction`. -/
def sqliteRollbackTransaction (s : SqliteState) (execR : Except JSError Unit) :
    JSResult Unit SqliteState :=
  if !s.inTransaction then .err (.err "No transaction in progress") s
  else match sqliteExecRaw s execR with
    | .err e s1 => .err e s1
    | .ok _ s1 => .ok () { s1 with inTransaction := false }

/-- `SQLiteAdapter.isInTransaction`. -/
def sqliteIsInTransaction (s : SqliteState) : Bool := s.inTransaction

/-- `MySQLAdapter` transaction-relevant fields. -/
structure MySQLState where
  pool : Bool
  transactionConnection : Bool
  deriving Repr, DecidableEq

/-- `MySQLAdapter.beginTransaction`: guard, `this.pool!.getConnection()`
(a `TypeError` when the pool is null), assignment, then
`execute('START TRANSACTION')` — note the connection stays assigned if the
`START TRANSACTION` itself throws. -/
def mysqlBeginTransaction (s : MySQLState)
    (acquireR : Except JSError Unit) (execR : Except JSError Unit) :
    JSResult Unit MySQLState :=
  if s.transactionConnection then .err (.err "Transaction already in progress") s
  else if !s.pool then .err (typeErrorNullRead "getConnection") s
  else match acquireR with
    | .error e => .err e s
    | .ok _ =>
      let s1 : MySQLState := { s with transactionConnection := true }
      match execR with
      | .error e => .err e s1
      | .ok _ => .ok () s1

/-- `MySQLAdapter.commitTransaction`: the connection stays held when the
native `COMMIT` throws; released and nulled on success. -/
def mysqlCommitTransaction (s : MySQLState) (execR : Except JSError Unit) :
    JSResult Unit MySQLState :=
  if !s.transactionConnection then .err (.err "No transaction in progress") s
  else match execR with
    | .error e => .err e s
    | .ok _ => .ok () { s with transactionConnection := false }

/-- `MySQLAdapter.rollbackTransaction`. -/
def mysqlRollbackTransaction (s : MySQLState) (execR : Except JSError Unit) :
    JSResult Unit MySQLState :=
  if !s.transactionConnection then .err (.err "No transaction in progress") s
  else match execR with
    | .error e => .err e s
    | .ok _ => .ok () { s with transactionConnection := false }

/-- `MySQLAdapter.isInTransaction`. -/
def mysqlIsInTransaction (s : MySQLState) : Bool := s.transactionConnection

/-- `PostgreSQLAdapter` transaction-relevant fields. -/
structure PGState where
  pool : Bool
  transactionClient : Bool
  deriving Repr, DecidableEq

/-- `PostgreSQLAdapter.beginTransaction`: guard, `this.pool!.connect()`,
assignment, then `query('BEGIN')`. -/
def pgBeginTransaction (s : PGState)
    (acquireR : Except JSError Unit) (execR : Except JSError Unit) :
    JSResult Unit PGState :=
  if s.transactionClient then .err (.err "Transaction already in progress") s
  else if !s.pool then .err (typeErrorNullRead "connect") s
  else match acquireR with
    | .error e => .err e s
    | .ok _ =>
      let s1 : PGState := { s with transactionClient := true }
      match execR with
      | .error e => .err e s1
      | .ok _ => .ok () s1

/-- `PostgreSQLAdapter.commitTransaction`. -/
def pgCommitTransaction (s : PGState) (execR : Except JSError Unit) :
    JSResult Unit PGState :=
  if !s.transactionClient then .err (.err "No transaction in progress") s
  else match execR with
    | .error e => .err e s
    | .ok _ => .ok () { s with transactionClient := false }

/-- `PostgreSQLAdapter.rollbackTransaction`. -/
def pgRollbackTransaction (s : PGState) (execR : Except JSError Unit) :
    JSResult Unit PGState :=
  if !s.transactionClient then .err (.err "No transaction in progress") s
  else match execR with
    | .error e => .err e s
    | .ok _ => .ok () { s with transactionClient := false }

/-- `PostgreSQLAdapter.isInTransaction`. -/
def pgIsInTransaction (s : PGState) : Bool := s.transactionClient

/-- `MongoDBAdapter` transaction-relevant fields. -/
structure MongoState where
  client : Bool
  inTransaction : Bool
  session : Bool
  deriving Repr, DecidableEq

/-- `MongoDBAdapter.beginTransaction`: `startSession()`/`startTransaction()`
are synchronous driver calls. -/
def mongoBeginTransaction (s : MongoState) : JSResult Unit MongoState :=
  if s.inTransaction then .err (.err "Transaction already in progress") s
  else if !s.client then .err (.err "Database not connected") s
  else .ok () { s with session := true, inTransaction := true }

/-- `MongoDBAdapter.commitTransaction` (`commitR` is the native
`session.commitTransaction()` outcome; `endSession` is modelled as not
throwing). -/
def mongoCommitTransaction (s : MongoState) (commitR : Except JSError Unit) :
    JSResult Unit MongoState :=
  if !s.inTransaction || !s.session then .err (.err "No transaction in progress") s
  else match commitR with
    | .error e => .err e s
    | .ok _ => .ok () { s with session := false, inTransaction := false }

/-- `MongoDBAdapter.rollbackTransaction`. -/
def mongoRollbackTransaction (s : MongoState) (abortR : Except JSError Unit) :
    JSResult Unit MongoState :=
  if !s.inTransaction || !s.session then .err (.err "No transaction in progress") s
  else match abortR with
    | .error e => .err e s
    | .ok _ => .ok () { s with session := false, inTransaction := false }

/-- `MongoDBAdapter.isInTransaction`. -/
def mongoIsInTransaction (s : MongoState) : Bool := s.inTransaction

/-- `CassandraAdapter` transaction field (a bare flag). -/
structure CassTxState where
  inTransaction : Bool
  deriving Repr, DecidableEq

/-- `CassandraAdapter.beginTransaction`: sets the flag unconditionally —
no already-in-progress check, never fails. -/
def cassandraBeginTransaction (_s : CassTxState) : JSResult Unit CassTxState :=
  .ok () { inTransaction := true }

/-- `CassandraAdapter.commitTransaction`: clears the flag unconditionally —
no idle check, never fails. -/
def cassandraCommitTransaction (_s : CassTxState) : JSResult Unit CassTxState :=
  .ok () { inTransaction := false }

/-- `CassandraAdapter.rollbackTransaction`. -/
def cassandraRollbackTransaction (_s : CassTxState) : JSResult Unit CassTxState :=
  .ok () { inTransaction := false }

/-- `CassandraAdapter.isInTransaction`. -/
def cassandraIsInTransaction (s : CassTxState) : Bool := s.inTransaction

/-- `MSSQLAdapter` transaction-relevant field (only the pool handle). -/
structure MSSQLState where
  pool : Bool
  deriving Repr, DecidableEq

/-- `MSSQLAdapter.beginTransaction`: only a connection guard; no
transaction state exists. -/
def mssqlBeginTransaction (s : MSSQLState) : JSResult Unit MSSQLState :=
  if !s.pool then .err (.err "Not connected to database") s
  else .ok () s

/-- `MSSQLAdapter.commitTransaction`: a no-op that never fails. -/
def mssqlCommitTransaction (s : MSSQLState) : JSResult Unit MSSQLState :=
  .ok () s

/-- `MSSQLAdapter.rollbackTransaction`: a no-op that never fails. -/
def mssqlRollbackTransaction (s : MSSQLState) : JSResult Unit MSSQLState :=
  .ok () s

/-- `MSSQLAdapter.isInTransaction`: constantly false. -/
def mssqlIsInTransaction (_s : MSSQLState) : Bool := false

/-- `DynamoDBAdapter.beginTransaction`: an empty method. -/
def dynamoBeginTransaction (_s : Unit) : JSResult Unit Unit := .ok () ()

/-- `DynamoDBAdapter.commitTransaction`: an empty method. -/
def dynamoCommitTransaction (_s : Unit) : JSResult Unit Unit := .ok () ()

/-- `DynamoDBAdapter.rollbackTransaction`: an empty method. -/
def dynamoRollbackTransaction (_s : Unit) : JSResult Unit Unit := .ok () ()

/-- `DynamoDBAdapter.isInTransaction`: constantly false. -/
def dynamoIsInTransaction (_s : Unit) : Bool := false

/-! ## `getTableInfo` models

Descriptor contents are projected to the fields the claims inspect (name,
schema, kind, column names); the claims are about the null / non-null /
error outcome for a missing table, which each model reproduces from the
source's control flow.  Native catalog queries are oracles. -/

/-- The projected table/collection descriptor. -/
structure TableInfoD where
  name : String
  schemaName : Option String
  kind : String
  columns : List String
  deriving Repr, DecidableEq

/-- `PostgreSQLAdapter.getTableInfo`: not-connected guard from
`executeQuery`, then `information_schema.tables` lookup — zero rows means
`return null`. -/
def pgGetTableInfo (connected : Bool) (tableName : String)
    (schema : Option String) (tableRows : List JSVal) (colNames : List String) :
    Except JSError (Option TableInfoD) :=
  if !connected then .error (.err "Database not connected")
  else if tableRows.isEmpty then .ok none
  else .ok (some { name := tableName, schemaName := some (schema.getD "public"),
                   kind := "table", columns := colNames })

/-- `MySQLAdapter.getTableInfo`: same null-on-missing shape (default schema
`information_schema`). -/
def mysqlGetTableInfo (connected : Bool) (tableName : String)
    (schema : Option String) (tableRows : List JSVal) (colNames : List String) :
    Except JSError (Option TableInfoD) :=
  if !connected then .error (.err "Database not connected")
  else if tableRows.isEmpty then .ok none
  else .ok (some { name := tableName,
                   schemaName := some (schema.getD "information_schema"),
                   kind := "table", columns := colNames })

/-- `SQLiteAdapter.getTableInfo`: `sqlite_master` lookup — zero rows means
`return null`. -/
def sqliteGetTableInfo (connected : Bool) (tableName : String)
    (tableRows : List JSVal) (colNames : List String) :
    Except JSError (Option TableInfoD) :=
  if !connected then .error (.err "Database not connected")
  else if tableRows.isEmpty then .ok none
  else .ok (some { name := tableName, schemaName := none, kind := "table",
                   columns := colNames })

/-- `CassandraAdapter.getTableInfo`: `system_schema.tables` lookup — zero
rows means `return null`. -/
def cassandraGetTableInfo (connected : Bool) (tableName : String)
    (tableRows : List JSVal) (colNames : List String) :
    Except JSError (Option TableInfoD) :=
  if !connected then .error (.err "Database not connected")
  else if tableRows.isEmpty then .ok none
  else .ok (some { name := tableName, schemaName := none, kind := "table",
                   columns := colNames })

/-- `MongoDBAdapter.getTableInfo`: `findOne` sample — a null sample (missing
or empty collection) means `return null`. -/
def mongoGetTableInfo (connected : Bool) (tableName : String)
    (sample : Option JSVal) : Except JSError (Option TableInfoD) :=
  if !connected then .error (.err "Database not connected")
  else match sample with
    | none => .ok none
    | some s => .ok (some { name := tableName, schemaName := none,
                            kind := "table", columns := objKeys s })

/-- What `DescribeTableCommand` yields for the DynamoDB model. -/
structure DynTableDesc where
  attributeDefinitions : List String
  deriving Repr, DecidableEq

/-- `DynamoDBAdapter.getTableInfo`: no catch around the `DescribeTable`
call, so a driver `ResourceNotFoundException` for a missing table
propagates as an error; a success without a `Table` field throws
`Table <name> not found`.  No branch returns null. -/
def dynamoGetTableInfo (connected : Bool) (tableName : String)
    (describeR : Except JSError (Option DynTableDesc)) :
    Except JSError (Option TableInfoD) :=
  if !connected then .error (.err "Not connected to database")
  else match describeR with
    | .error e => .error e
    | .ok none => .error (.err ("Table " ++ tableName ++ " not found"))
    | .ok (some t) =>
      .ok (some { name := tableName, schemaName := none, kind := "table",
                  columns := t.attributeDefinitions })

/-- `MSSQLAdapter.getTableInfo`: builds and returns a descriptor
unconditionally from whatever the three catalog queries return — for a
missing table the column rows are just empty; no branch returns null. -/
def mssqlGetTableInfo (connected : Bool) (tableName : String)
    (schema : Option String) (colNames : List String) :
    Except JSError (Option TableInfoD) :=
  if !connected then .error (.err "Not connected to database")
  else .ok (some { name := tableName, schemaName := some (schema.getD "dbo"),
                   kind := "table", columns := colNames })

/-- `RedisAdapter.getTableInfo`: a pure function of the name — always the
same synthetic key/value descriptor, never null, no backend call. -/
def redisGetTableInfo (tableName : String) :
    Except JSError (Option TableInfoD) :=
  .ok (some { name := tableName, schemaName := none, kind := "table",
              columns := ["key", "value"] })

/-! ## `DynamoDBAdapter.executeQuery` (structured command + error wrap) -/

/-- The parsed structured command (`JSON.parse` of the query string). -/
structure DynCommand where
  tableName : String
  operation : String
  deriving Repr, DecidableEq

/-- The catch-all wrapper at the end of `DynamoDBAdapter.executeQuery`:
`new Error('Query execution failed: ' + (e instanceof Error ? e.message :
'Unknown error'))` — applied to every caught value, recognized `Error`
instances included. -/
def dynamoWrapExec : JSError → JSError
  | .err m => .err ("Query execution failed: " ++ m)
  | .raw _ => .err "Query execution failed: Unknown error"

/-- `DynamoDBAdapter.executeQuery`: not-connected guard outside the try,
then parse (`parseR`), dispatch on the operation verb (scan/query send the
command, `sendR` giving `Items`/`Count`; anything else throws), and the
catch wrapping every failure via `dynamoWrapExec`. -/
def dynamoExecuteQuery (connected : Bool) (parseR : Except JSError DynCommand)
    (sendR : Except JSError (Option (List JSVal) × Option Int)) :
    Except JSError QueryResult :=
  if !connected then .error (.err "Not connected to database")
  else
    let body : Except JSError QueryResult :=
      match parseR with
      | .error e => .error e
      | .ok cmd =>
        if cmd.operation = "scan" then
          match sendR with
          | .error e => .error e
          | .ok r => .ok (dynamoBuildResult r.1 r.2)
        else if cmd.operation = "query" then
          match sendR with
          | .error e => .error e
          | .ok r => .ok (dynamoBuildResult r.1 r.2)
        else .error (.err "Unsupported operation. Use \x22scan\x22 or \x22query\x22")
    match body with
    | .ok r => .ok r
    | .error e => .error (dynamoWrapExec e)

/-! ## `BaseDatabaseAdapter.executeBatch` -/

/-- A batch operation (`DatabaseOperation`). -/
structure DBOperation where
  query : String
  parameters : List JSVal
  deriving Repr

/-- The methods `executeBatch` dispatches through, for one adapter over its
state type `σ`. -/
structure AdapterM (σ : Type) where
  beginTx : σ → JSResult Unit σ
  execQ : DBOperation → σ → JSResult QueryResult σ
  commitTx : σ → JSResult Unit σ
  rollbackTx : σ → JSResult Unit σ
  handleErr : JSError → JSError

/-- The `for (const operation of operations)` loop of `executeBatch`:
execute each operation's query in order, pushing results. -/
def runBatchOps (A : AdapterM σ) :
    List DBOperation → σ → List QueryResult → JSResult (List QueryResult) σ
  | [], s, acc => .ok acc.reverse s
  | op :: ops, s, acc =>
    match A.execQ op s with
    | .ok r s1 => runBatchOps A ops s1 (r :: acc)
    | .err e s1 => .err e s1

/-- The catch block of `executeBatch`:
`await this.rollbackTransaction(); throw this.handleError(error);` —
if the rollback itself throws, its error propagates instead and
`handleError(error)` is never reached. -/
def batchCatch (A : AdapterM σ) (e : JSError) (s : σ) :
    JSResult (List QueryResult) σ :=
  match A.rollbackTx s with
  | .err e2 s1 => .err e2 s1
  | .ok _ s1 => .err (A.handleErr e) s1

/-- `BaseDatabaseAdapter.executeBatch`: begin → execute each operation in
order, collecting results → commit; any throw lands in `batchCatch`. -/
def executeBatch (A : AdapterM σ) (ops : List DBOperation) (s : σ) :
    JSResult (List QueryResult) σ :=
  match A.beginTx s with
  | .err e s1 => batchCatch A e s1
  | .ok _ s1 =>
    match runBatchOps A ops s1 [] with
    | .err e s2 => batchCatch A e s2
    | .ok rs s2 =>
      match A.commitTx s2 with
      | .err e s3 => batchCatch A e s3
      | .ok _ s3 => .ok rs s3

/-- `SQLiteAdapter.executeQuery` as a batch step: connection guard, native
`db.all` (oracle `natQ` returns the rows and whether the LIMIT-0 column
probe failed), native errors rejected through `handleError`. -/
def sqliteExecuteQueryM
    (natQ : String → List JSVal → SqliteState → Except JSError (List JSVal × Bool))
    (op : DBOperation) (s : SqliteState) : JSResult QueryResult SqliteState :=
  if !s.db then .err (.err "Database not connected") s
  else match natQ op.query op.parameters s with
    | .error e => .err (sqliteHandleError e) s
    | .ok r => .ok (sqliteBuildResult r.1 r.2) s

/-- The `SQLiteAdapter` methods assembled for `executeBatch` (`natTx` is the
native outcome of the BEGIN/COMMIT/ROLLBACK statements). -/
def sqliteAdapterM (natTx : String → SqliteState → Except JSError Unit)
    (natQ : String → List JSVal → SqliteState → Except JSError (List JSVal × Bool)) :
    AdapterM SqliteState :=
  { beginTx := fun s => sqliteBeginTransaction s (natTx "BEGIN TRANSACTION" s)
    execQ := sqliteExecuteQueryM natQ
    commitTx := fun s => sqliteCommitTransaction s (natTx "COMMIT" s)
    rollbackTx := fun s => sqliteRollbackTransaction s (natTx "ROLLBACK" s)
    handleErr := sqliteHandleError }

/-! ## Connection registry (`DatabaseConnectionManager`)

The JS `Map` is an insertion-ordered association list with unique keys;
adapter instances are opaque handles of type `α`. -/

/-- `Map.get`. -/
def mapGet (m : List (String × α)) (k : String) : Option α :=
  match m.find? (fun p => p.1 = k) with
  | some p => some p.2
  | none => none

/-- `Map.set`: update in place, else append (insertion order). -/
def mapSet : List (String × α) → String → α → List (String × α)
  | [], k, v => [(k, v)]
  | p :: rest, k, v => if p.1 = k then (k, v) :: rest else p :: mapSet rest k v

/-- `Map.delete`. -/
def mapDelete (m : List (String × α)) (k : String) : List (String × α) :=
  m.filter (fun p => p.1 ≠ k)

/-- Registry state: the name→adapter map and the nullable current name. -/
structure Manager (α : Type) where
  connections : List (String × α)
  currentConnection : Option String
  deriving Repr

/-- JS falsiness of the nullable current name (`!this.currentConnection`):
null and the empty string are both falsy. -/
def optStrFalsy : Option String → Bool
  | none => true
  | some s => s.isEmpty

/-- JS `x || null` on a possibly-undefined string
(`this.connections.keys().next().value || null`): undefined and the empty
string both collapse to null. -/
def jsOrNullStr : Option String → Option String
  | none => none
  | some s => if s.isEmpty then none else some s

/-- `DatabaseConnectionManager.addConnection`: factory-construct + connect
(oracle `connectR`), then insert; first-connection logic via the falsy
check.  On failure the whole error is re-wrapped with the connection name
(template literal `${error}` stringification) and nothing was registered. -/
def addConnection (m : Manager α) (name : String) (adapter : α)
    (connectR : Except JSError Unit) : JSResult Unit (Manager α) :=
  match connectR with
  | .error e =>
    .err (.err ("Failed to add connection \x27" ++ name ++ "\x27: " ++ e.jsToString)) m
  | .ok _ =>
    let conns := mapSet m.connections name adapter
    let cur := if optStrFalsy m.currentConnection then some name
               else m.currentConnection
    .ok () { connections := conns, currentConnection := cur }

/-- `DatabaseConnectionManager.removeConnection`: if present, disconnect
(oracle; a throw propagates before anything is removed), delete, and
reassign current to the first remaining key `|| null` when the removed
entry was current. -/
def removeConnection (m : Manager α) (name : String)
    (disconnectR : Except JSError Unit) : JSResult Unit (Manager α) :=
  match mapGet m.connections name with
  | none => .ok () m
  | some _ =>
    match disconnectR with
    | .error e => .err e m
    | .ok _ =>
      let conns := mapDelete m.connections name
      let cur :=
        if m.currentConnection = some name then
          jsOrNullStr (conns.head?.map (fun p => p.1))
        else m.currentConnection
      .ok () { connections := conns, currentConnection := cur }

/-- `DatabaseConnectionManager.getConnection`: a truthy name looks up that
entry; otherwise the current entry resolves via the truthiness ternary. -/
def getConnection (m : Manager α) (name : Option String) : Option α :=
  match name with
  | some s =>
    if !s.isEmpty then mapGet m.connections s
    else
      match m.currentConnection with
      | some c => if c.isEmpty then none else mapGet m.connections c
      | none => none
  | none =>
    match m.currentConnection with
    | some c => if c.isEmpty then none else mapGet m.connections c
    | none => none

/-- `DatabaseConnectionManager.getCurrentConnectionName`. -/
def getCurrentConnectionName (m : Manager α) : Option String :=
  m.currentConnection

/-- `DatabaseConnectionManager.hasConnection`. -/
def hasConnection (m : Manager α) (name : String) : Bool :=
  (mapGet m.connections name).isSome

/-- `DatabaseConnectionManager.setCurrentConnection`. -/
def setCurrentConnection (m : Manager α) (name : String) :
    JSResult Unit (Manager α) :=
  if hasConnection m name then .ok () { m with currentConnection := some name }
  else .err (.err ("Connection \x27" ++ name ++ "\x27 not found")) m

/-- The teardown loop of `disconnectAll`: every entry's `disconnect()` is
attempted in order; each outcome is caught (logged), never propagated. -/
def disconnectAllTrace (d : α → Except JSError Unit) :
    List (String × α) → List (String × Except JSError Unit)
  | [] => []
  | p :: rest => (p.1, d p.2) :: disconnectAllTrace d rest

/-- `DatabaseConnectionManager.disconnectAll`: the caught-per-entry loop,
then `connections.clear()` and `currentConnection = null` unconditionally.
Returns the new state and the trace of attempted disconnects. -/
def disconnectAll (m : Manager α) (d : α → Except JSError Unit) :
    Manager α × List (String × Except JSError Unit) :=
  ({ connections := [], currentConnection := none },
   disconnectAllTrace d m.connections)

/-! ## `RedisAdapter.executeQuery` parameter substitution -/

/-- JS `String.prototype.trim` (ASCII whitespace). -/
def jsTrim (s : String) : String :=
  String.mk (((s.data.dropWhile isJsWS).reverse.dropWhile isJsWS).reverse)

/-- JS `split(' ')`: split on every single space, keeping empty fields. -/
def jsSplitSpaceAux : List Char → List Char → List String
  | [], acc => [String.mk acc.reverse]
  | c :: cs, acc =>
    if c = ' ' then String.mk acc.reverse :: jsSplitSpaceAux cs []
    else jsSplitSpaceAux cs (c :: acc)

/-- JS `s.split(' ')`. -/
def jsSplitSpace (s : String) : List String := jsSplitSpaceAux s.data []

/-- The substitution loop of `RedisAdapter.executeQuery`: walk the argument
tokens; each literal `?` is replaced by `String(parameters.shift())` —
`shift` removes the front of the caller's array (yielding `undefined`, hence
the string "undefined", once it is exhausted). -/
def redisSubstLoop : List String → List JSVal → List String × List JSVal
  | [], ps => ([], ps)
  | a :: as, ps =>
    if a = "?" then
      match ps with
      | [] =>
        let r := redisSubstLoop as []
        ("undefined" :: r.1, r.2)
      | p :: ps2 =>
        let r := redisSubstLoop as ps2
        (p.jsToString :: r.1, r.2)
    else
      let r := redisSubstLoop as ps
      (a :: r.1, r.2)

/-- The argument tokens of a Redis command string: `query.trim().split(' ')`
minus the leading command token (`parts.slice(1)`). -/
def redisArgs (query : String) : List String :=
  (jsSplitSpace (jsTrim query)).tail

/-- Parameter handling of `RedisAdapter.executeQuery`: the substitution loop
runs only when a parameters array was passed and is non-empty
(`if (parameters && parameters.length > 0)`).  Returns the final argument
tokens and what remains of the caller's parameters array. -/
def redisParamSubst (query : String) (ps : Option (List JSVal)) :
    List String × Option (List JSVal) :=
  let args := redisArgs query
  match ps with
  | none => (args, none)
  | some l =>
    if l.length > 0 then
      let r := redisSubstLoop args l
      (r.1, some r.2)
    else (args, some l)

/-- The caller's parameters array after `RedisAdapter.executeQuery` has run
its substitution. -/
def redisParamsAfter (query : String) (ps : Option (List JSVal)) :
    Option (List JSVal) :=
  (redisParamSubst query ps).2

/-- `CassandraAdapter.executeQuery` hands `parameters || []` to the driver
read-only; the caller's array is left as passed. -/
def cassandraParamsAfter (ps : Option (List JSVal)) : Option (List JSVal) := ps

/-- `MySQLAdapter.executeQuery` hands `parameters` to `connection.execute`
read-only. -/
def mysqlParamsAfter (ps : Option (List JSVal)) : Option (List JSVal) := ps

/-- `PostgreSQLAdapter.executeQuery` hands `parameters` to `client.query`
read-only. -/
def pgParamsAfter (ps : Option (List JSVal)) : Option (List JSVal) := ps

/-- `SQLiteAdapter.executeQuery` hands `parameters || []` to `db.all`
read-only. -/
def sqliteParamsAfter (ps : Option (List JSVal)) : Option (List JSVal) := ps

/-- `MongoDBAdapter.executeQuery` ignores its `_parameters` argument. -/
def mongoParamsAfter (ps : Option (List JSVal)) : Option (List JSVal) := ps

/-- `DynamoDBAdapter.executeQuery` ignores its `_parameters` argument. -/
def dynamoParamsAfter (ps : Option (List JSVal)) : Option (List JSVal) := ps

/-- `MSSQLAdapter.executeQuery` reads the array once with `forEach` to bind
named inputs `param0, param1, …`. -/
def mssqlRequestInputs (ps : Option (List JSVal)) : List (String × JSVal) :=
  match ps with
  | none => []
  | some l => l.enum.map (fun p => ("param" ++ toString p.1, p.2))

/-- The caller's array after `MSSQLAdapter.executeQuery`'s read-only
`forEach`. -/
def mssqlParamsAfter (ps : Option (List JSVal)) : Option (List JSVal) := ps

/-- A native-transaction oracle whose statements all succeed. -/
def natTxOk : String → SqliteState → Except JSError Unit := fun _ _ => .ok ()

/-- A native-query oracle that always returns an empty row set. -/
def natQOk : String → List JSVal → SqliteState → Except JSError (List JSVal × Bool) :=
  fun _ _ _ => .ok ([], false)

/-! # Theorems -/

/-- Helper: the teardown trace visits exactly the registered names, in
order, whatever the disconnect outcomes are. -/
theorem disconnectAllTrace_names (d : α → Except JSError Unit) :
    ∀ l : List (String × α),
      (disconnectAllTrace d l).map (fun p => p.1) = l.map (fun p => p.1)
  | [] => rfl
  | _ :: rest => by
    simp only [disconnectAllTrace, List.map_cons]
    exact congrArg _ (disconnectAllTrace_names d rest)

/-- C9: after `disconnectAll` the connection map is empty and the current
pointer is null, for every registry state and every assignment of
disconnect outcomes (throwing or not) to the adapters; every entry's
disconnect is attempted (the trace lists every registered name in order),
and no disconnect error escapes (the function is total, with no error
outcome). -/
theorem c9_disconnectAll_teardown (m : Manager α) (d : α → Except JSError Unit) :
    (disconnectAll m d).1.connections = [] ∧
    (disconnectAll m d).1.currentConnection = none ∧
    ((disconnectAll m d).2.map (fun p => p.1)) = m.connections.map (fun p => p.1) :=
  ⟨rfl, rfl, disconnectAllTrace_names d m.connections⟩

/-- C7: when the adapter's `connect()` fails during `addConnection`, the
registry state is returned unchanged (no entry added, current pointer
untouched) and the thrown error wraps the connect failure's rendering
together with the connection name. -/
theorem c7_addConnection_failure (m : Manager α) (name : String) (adapter : α)
    (e : JSError) :
    addConnection m name adapter (.error e) =
      .err (.err ("Failed to add connection \x27" ++ name ++ "\x27: " ++
        e.jsToString)) m :=
  rfl

/-- C2, counterexample: three adapters return the native driver's count
rather than the number of returned rows — a DynamoDB response with
`Count: 5` and no `Items` yields `rowCount = 5` with zero rows, a
PostgreSQL DML response with `rowCount: 3` and no rows yields 3, and an
MSSQL response with `rowsAffected[0] = 2` and an empty recordset yields 2. -/
theorem c2_rowCount_counterexample :
    (dynamoBuildResult none (some 5)).rowCount = 5 ∧
    (dynamoBuildResult none (some 5)).rows.length = 0 ∧
    (pgBuildResult [] (some 3) []).rowCount = 3 ∧
    (pgBuildResult [] (some 3) []).rows.length = 0 ∧
    (mssqlBuildResult none [2] []).rowCount = 2 ∧
    (mssqlBuildResult none [2] []).rows.length = 0 ∧
    (5 : Int) ≠ 0 ∧ (3 : Int) ≠ 0 ∧ (2 : Int) ≠ 0 := by
  refine ⟨rfl, rfl, rfl, rfl, rfl, rfl, by decide, by decide, by decide⟩

/-- C2 (amended): `rowCount` equals the length of the returned row list for
the Cassandra, MySQL, SQLite, Redis and MongoDB adapters; the PostgreSQL,
MSSQL and DynamoDB adapters instead surface the native driver's count
(`result.rowCount || 0`, `result.rowsAffected[0] || 0`, `result.Count || 0`),
which can differ from the number of returned rows. -/
theorem c2_rowCount_amended :
    (∀ (nr : List CassRow) (cols : List CassColumn),
      (cassandraBuildResult nr cols).rowCount =
        ((cassandraBuildResult nr cols).rows.length : Int)) ∧
    (∀ (rv : JSVal) (f : Option (List MyField)),
      (mysqlBuildResult rv f).rowCount = ((mysqlBuildResult rv f).rows.length : Int)) ∧
    (∀ (rows : List JSVal) (c : Bool),
      (sqliteBuildResult rows c).rowCount = ((sqliteBuildResult rows c).rows.length : Int)) ∧
    (∀ v : JSVal, (redisBuildResult v).rowCount = ((redisBuildResult v).rows.length : Int)) ∧
    (∀ v : JSVal, (mongoBuildResult v).rowCount = ((mongoBuildResult v).rows.length : Int)) ∧
    (∀ (rows : List JSVal) (rc : Option Int) (f : List FieldInfo),
      (pgBuildResult rows rc f).rowCount = jsNumOr0 rc) ∧
    (∀ (rs : Option (List JSVal)) (ra : List Int) (c : List FieldInfo),
      (mssqlBuildResult rs ra c).rowCount = jsNumOr0 ra.head?) ∧
    (∀ (it : Option (List JSVal)) (ct : Option Int),
      (dynamoBuildResult it ct).rowCount = jsNumOr0 ct) := by
  refine ⟨?_, ?_, ?_, ?_, ?_, fun _ _ _ => rfl, fun _ _ _ => rfl, fun _ _ => rfl⟩
  · intro nr cols
    simp [cassandraBuildResult]
  · intro rv f
    cases rv <;> simp [mysqlBuildResult]
  · intro rows c
    simp [sqliteBuildResult]
  · intro v
    cases v <;> simp [redisBuildResult]
  · intro v
    cases v <;> simp [mongoBuildResult]

/-- C3, counterexample: for a missing table, `DynamoDBAdapter.getTableInfo`
raises (the uncaught driver not-found error propagates, and a success
without a `Table` field throws `Table <name> not found`), while
`MSSQLAdapter.getTableInfo` and `RedisAdapter.getTableInfo` return a
non-null skeletal descriptor — none of the three returns a null result. -/
theorem c3_getTableInfo_counterexample :
    dynamoGetTableInfo true "users" (.error (.err "Requested resource not found")) =
      .error (.err "Requested resource not found") ∧
    dynamoGetTableInfo true "users" (.ok none) =
      .error (.err "Table users not found") ∧
    mssqlGetTableInfo true "users" none [] =
      .ok (some { name := "users", schemaName := some "dbo", kind := "table",
                  columns := [] }) ∧
    redisGetTableInfo "nosuchpattern" =
      .ok (some { name := "nosuchpattern", schemaName := none, kind := "table",
                  columns := ["key", "value"] }) := by
  refine ⟨rfl, rfl, rfl, rfl⟩

/-- C3 (amended): on a connected adapter, a missing table yields a null
result (no error) from the PostgreSQL, MySQL, SQLite, Cassandra and MongoDB
adapters; the DynamoDB adapter instead propagates the driver's not-found
error, and the MSSQL and Redis adapters return a non-null descriptor for
any name. -/
theorem c3_getTableInfo_missing_amended :
    (∀ (n : String) (sch : Option String) (cols : List String),
      pgGetTableInfo true n sch [] cols = .ok none) ∧
    (∀ (n : String) (sch : Option String) (cols : List String),
      mysqlGetTableInfo true n sch [] cols = .ok none) ∧
    (∀ (n : String) (cols : List String),
      sqliteGetTableInfo true n [] cols = .ok none) ∧
    (∀ (n : String) (cols : List String),
      cassandraGetTableInfo true n [] cols = .ok none) ∧
    (∀ n : String, mongoGetTableInfo true n none = .ok none) ∧
    (∀ (n : String) (e : JSError),
      dynamoGetTableInfo true n (.error e) = .error e) ∧
    (∀ (n : String) (sch : Option String) (cols : List String),
      ∃ d, mssqlGetTableInfo true n sch cols = .ok (some d)) ∧
    (∀ n : String, ∃ d, redisGetTableInfo n = .ok (some d)) := by
  refine ⟨fun _ _ _ => rfl, fun _ _ _ => rfl, fun _ _ => rfl, fun _ _ => rfl,
    fun _ => rfl, fun _ _ => rfl, fun n sch cols => ⟨_, rfl⟩, fun n => ⟨_, rfl⟩⟩

/-- C6, counterexample: `DynamoDBAdapter.executeQuery` does not let a
recognized `Error` pass through unchanged and does not use the backend-name
prefix: every caught failure — here the `Error` thrown for an unsupported
operation verb, and a generic `Error` fed to the wrapper — is re-wrapped
with the `Query execution failed:` prefix. -/
theorem c6_error_normalization_counterexample :
    dynamoExecuteQuery true (.ok { tableName := "t", operation := "put" })
        (.ok (none, none)) =
      .error (.err "Query execution failed: Unsupported operation. Use \x22scan\x22 or \x22query\x22") ∧
    dynamoWrapExec (.err "boom") = .err "Query execution failed: boom" ∧
    ("Query execution failed: boom" : String) ≠ "boom" ∧
    ("Query execution failed: boom" : String) ≠ "DynamoDB error: boom" := by
  refine ⟨rfl, rfl, by decide, by decide⟩

/-- C6 (amended): every adapter's `handleError` passes a recognized `Error`
value through unchanged and wraps any other thrown value with its backend
name as `<Backend> error: <String(value)>`; the one exception is
`DynamoDBAdapter.executeQuery`, whose catch block re-wraps every failure
(recognized or not) into `Query execution failed: <message | Unknown
error>`. -/
theorem c6_error_normalization_amended :
    (∀ m : String,
      pgHandleError (.err m) = .err m ∧ mysqlHandleError (.err m) = .err m ∧
      sqliteHandleError (.err m) = .err m ∧ redisHandleError (.err m) = .err m ∧
      mongoHandleError (.err m) = .err m ∧ cassandraHandleError (.err m) = .err m ∧
      mssqlHandleError (.err m) = .err m ∧ dynamoHandleError (.err m) = .err m) ∧
    (∀ v : JSVal,
      pgHandleError (.raw v) = .err ("PostgreSQL error: " ++ v.jsToString) ∧
      mysqlHandleError (.raw v) = .err ("MySQL error: " ++ v.jsToString) ∧
      sqliteHandleError (.raw v) = .err ("SQLite error: " ++ v.jsToString) ∧
      redisHandleError (.raw v) = .err ("Redis error: " ++ v.jsToString) ∧
      mongoHandleError (.raw v) = .err ("MongoDB error: " ++ v.jsToString) ∧
      cassandraHandleError (.raw v) = .err ("Cassandra error: " ++ v.jsToString) ∧
      mssqlHandleError (.raw v) = .err ("MSSQL error: " ++ v.jsToString) ∧
      dynamoHandleError (.raw v) = .err ("DynamoDB error: " ++ v.jsToString)) ∧
    (∀ m : String, dynamoWrapExec (.err m) = .err ("Query execution failed: " ++ m)) ∧
    (∀ v : JSVal, dynamoWrapExec (.raw v) = .err "Query execution failed: Unknown error") := by
  refine ⟨fun m => ⟨rfl, rfl, rfl, rfl, rfl, rfl, rfl, rfl⟩,
    fun v => ⟨rfl, rfl, rfl, rfl, rfl, rfl, rfl, rfl⟩, fun m => rfl, fun v => rfl⟩

/-- C1, counterexample: three adapters do not enforce the transaction state
machine.  `CassandraAdapter.beginTransaction` called while a transaction is
active succeeds (no "transaction already in progress" failure) and its
commit/rollback while idle succeed; `MSSQLAdapter.beginTransaction` on a
connected adapter succeeds yet `isInTransaction()` stays false, and its
commit/rollback while idle succeed; `DynamoDBAdapter`'s methods are empty
and `isInTransaction()` is constantly false. -/
theorem c1_state_machine_counterexample :
    cassandraBeginTransaction { inTransaction := true } =
      .ok () { inTransaction := true } ∧
    cassandraCommitTransaction { inTransaction := false } =
      .ok () { inTransaction := false } ∧
    cassandraRollbackTransaction { inTransaction := false } =
      .ok () { inTransaction := false } ∧
    mssqlBeginTransaction { pool := true } = .ok () { pool := true } ∧
    mssqlIsInTransaction { pool := true } = false ∧
    mssqlCommitTransaction { pool := true } = .ok () { pool := true } ∧
    dynamoBeginTransaction () = .ok () () ∧
    dynamoIsInTransaction () = false := by
  refine ⟨rfl, rfl, rfl, rfl, rfl, rfl, rfl, rfl⟩

/-- C1 (amended): the transaction state machine is enforced by the Redis,
SQLite, MySQL, PostgreSQL and MongoDB adapters — begin while active fails
with "Transaction already in progress" leaving the state unchanged,
commit/rollback while idle fail with "No transaction in progress" leaving
the state unchanged, a successful begin makes `isInTransaction()` true and
a successful commit/rollback makes it false.  The Cassandra adapter merely
toggles its flag (begin/commit/rollback never fail, in any state), and the
MSSQL and DynamoDB adapters keep no transaction state at all: begin
succeeds whenever connected, commit/rollback always succeed, and
`isInTransaction()` is constantly false. -/
theorem c1_transaction_state_machine :
    (∀ s : RedisTxState, redisIsInTransaction s = true →
      redisBeginTransaction s = .err (.err "Transaction already in progress") s) ∧
    (∀ s : RedisTxState, redisIsInTransaction s = false →
      redisCommitTransaction s = .err (.err "No transaction in progress") s ∧
      redisRollbackTransaction s = .err (.err "No transaction in progress") s) ∧
    (∀ s s2 : RedisTxState, redisBeginTransaction s = .ok () s2 →
      redisIsInTransaction s2 = true) ∧
    (∀ s s2 : RedisTxState, redisCommitTransaction s = .ok () s2 →
      redisIsInTransaction s2 = false) ∧
    (∀ s s2 : RedisTxState, redisRollbackTransaction s = .ok () s2 →
      redisIsInTransaction s2 = false) ∧
    (∀ (s : SqliteState) (r : Except JSError Unit), sqliteIsInTransaction s = true →
      sqliteBeginTransaction s r = .err (.err "Transaction already in progress") s) ∧
    (∀ (s : SqliteState) (r : Except JSError Unit), sqliteIsInTransaction s = false →
      sqliteCommitTransaction s r = .err (.err "No transaction in progress") s ∧
      sqliteRollbackTransaction s r = .err (.err "No transaction in progress") s) ∧
    (∀ (s s2 : SqliteState) (r : Except JSError Unit),
      sqliteBeginTransaction s r = .ok () s2 → sqliteIsInTransaction s2 = true) ∧
    (∀ (s s2 : SqliteState) (r : Except JSError Unit),
      sqliteCommitTransaction s r = .ok () s2 → sqliteIsInTransaction s2 = false) ∧
    (∀ (s s2 : SqliteState) (r : Except JSError Unit),
      sqliteRollbackTransaction s r = .ok () s2 → sqliteIsInTransaction s2 = false) ∧
    (∀ (s : MySQLState) (a r : Except JSError Unit), mysqlIsInTransaction s = true →
      mysqlBeginTransaction s a r = .err (.err "Transaction already in progress") s) ∧
    (∀ (s : MySQLState) (r : Except JSError Unit), mysqlIsInTransaction s = false →
      mysqlCommitTransaction s r = .err (.err "No transaction in progress") s ∧
      mysqlRollbackTransaction s r = .err (.err "No transaction in progress") s) ∧
    (∀ (s s2 : MySQLState) (a r : Except JSError Unit),
      mysqlBeginTransaction s a r = .ok () s2 → mysqlIsInTransaction s2 = true) ∧
    (∀ (s s2 : MySQLState) (r : Except JSError Unit),
      mysqlCommitTransaction s r = .ok () s2 → mysqlIsInTransaction s2 = false) ∧
    (∀ (s s2 : MySQLState) (r : Except JSError Unit),
      mysqlRollbackTransaction s r = .ok () s2 → mysqlIsInTransaction s2 = false) ∧
    (∀ (s : PGState) (a r : Except JSError Unit), pgIsInTransaction s = true →
      pgBeginTransaction s a r = .err (.err "Transaction already in progress") s) ∧
    (∀ (s : PGState) (r : Except JSError Unit), pgIsInTransaction s = false →
      pgCommitTransaction s r = .err (.err "No transaction in progress") s ∧
      pgRollbackTransaction s r = .err (.err "No transaction in progress") s) ∧
    (∀ (s s2 : PGState) (a r : Except JSError Unit),
      pgBeginTransaction s a r = .ok () s2 → pgIsInTransaction s2 = true) ∧
    (∀ (s s2 : PGState) (r : Except JSError Unit),
      pgCommitTransaction s r = .ok () s2 → pgIsInTransaction s2 = false) ∧
    (∀ (s s2 : PGState) (r : Except JSError Unit),
      pgRollbackTransaction s r = .ok () s2 → pgIsInTransaction s2 = false) ∧
    (∀ s : MongoState, mongoIsInTransaction s = true →
      mongoBeginTransaction s = .err (.err "Transaction already in progress") s) ∧
    (∀ (s : MongoState) (r : Except JSError Unit), mongoIsInTransaction s = false →
      mongoCommitTransaction s r = .err (.err "No transaction in progress") s ∧
      mongoRollbackTransaction s r = .err (.err "No transaction in progress") s) ∧
    (∀ s s2 : MongoState, mongoBeginTransaction s = .ok () s2 →
      mongoIsInTransaction s2 = true) ∧
    (∀ (s s2 : MongoState) (r : Except JSError Unit),
      mongoCommitTransaction s r = .ok () s2 → mongoIsInTransaction s2 = false) ∧
    (∀ (s s2 : MongoState) (r : Except JSError Unit),
      mongoRollbackTransaction s r = .ok () s2 → mongoIsInTransaction s2 = false) ∧
    (∀ s : CassTxState,
      cassandraBeginTransaction s = .ok () { inTransaction := true } ∧
      cassandraCommitTransaction s = .ok () { inTransaction := false } ∧
      cassandraRollbackTransaction s = .ok () { inTransaction := false }) ∧
    (∀ s : MSSQLState, s.pool = true → mssqlBeginTransaction s = .ok () s) ∧
    (∀ s : MSSQLState,
      mssqlCommitTransaction s = .ok () s ∧
      mssqlRollbackTransaction s = .ok () s ∧
      mssqlIsInTransaction s = false) ∧
    (dynamoBeginTransaction () = .ok () () ∧
      dynamoCommitTransaction () = .ok () () ∧
      dynamoRollbackTransaction () = .ok () () ∧
      dynamoIsInTransaction () = false) := by
  refine ⟨?_, ?_, ?_, ?_, ?_, ?_, ?_, ?_, ?_, ?_, ?_, ?_, ?_, ?_, ?_, ?_, ?_,
    ?_, ?_, ?_, ?_, ?_, ?_, ?_, ?_, ?_, ?_, ?_, ⟨rfl, rfl, rfl, rfl⟩⟩
  · intro s h
    simp only [redisIsInTransaction] at h
    simp [redisBeginTransaction, h]
  · intro s h
    simp only [redisIsInTransaction] at h
    constructor <;> simp [redisCommitTransaction, redisRollbackTransaction, h]
  · intro s s2 h
    by_cases hs : s.inTransaction <;>
      simp [redisBeginTransaction, hs] at h <;>
      simp [redisIsInTransaction, ← h]
  · intro s s2 h
    by_cases hs : s.inTransaction <;>
      simp [redisCommitTransaction, hs] at h <;>
      simp [redisIsInTransaction, ← h]
  · intro s s2 h
    by_cases hs : s.inTransaction <;>
      simp [redisRollbackTransaction, hs] at h <;>
      simp [redisIsInTransaction, ← h]
  · intro s r h
    simp only [sqliteIsInTransaction] at h
    simp [sqliteBeginTransaction, h]
  · intro s r h
    simp only [sqliteIsInTransaction] at h
    constructor <;> simp [sqliteCommitTransaction, sqliteRollbackTransaction, h]
  · intro s s2 r h
    rcases s with ⟨db, itx⟩
    rcases r with e | u <;> cases db <;> cases itx <;>
      simp_all [sqliteBeginTransaction, sqliteExecRaw, sqliteIsInTransaction] <;> (subst h; rfl)
  · intro s s2 r h
    rcases s with ⟨db, itx⟩
    rcases r with e | u <;> cases db <;> cases itx <;>
      simp_all [sqliteCommitTransaction, sqliteExecRaw, sqliteIsInTransaction] <;> (subst h; rfl)
  · intro s s2 r h
    rcases s with ⟨db, itx⟩
    rcases r with e | u <;> cases db <;> cases itx <;>
      simp_all [sqliteRollbackTransaction, sqliteExecRaw, sqliteIsInTransaction] <;> (subst h; rfl)
  · intro s a r h
    simp only [mysqlIsInTransaction] at h
    simp [mysqlBeginTransaction, h]
  · intro s r h
    simp only [mysqlIsInTransaction] at h
    constructor <;> simp [mysqlCommitTransaction, mysqlRollbackTransaction, h]
  · intro s s2 a r h
    rcases s with ⟨pool, tc⟩
    rcases a with e | u <;> rcases r with e2 | u2 <;> cases pool <;> cases tc <;>
      simp_all [mysqlBeginTransaction, mysqlIsInTransaction] <;> (subst h; rfl)
  · intro s s2 r h
    rcases s with ⟨pool, tc⟩
    rcases r with e | u <;> cases pool <;> cases tc <;>
      simp_all [mysqlCommitTransaction, mysqlIsInTransaction] <;> (subst h; rfl)
  · intro s s2 r h
    rcases s with ⟨pool, tc⟩
    rcases r with e | u <;> cases pool <;> cases tc <;>
      simp_all [mysqlRollbackTransaction, mysqlIsInTransaction] <;> (subst h; rfl)
  · intro s a r h
    simp only [pgIsInTransaction] at h
    simp [pgBeginTransaction, h]
  · intro s r h
    simp only [pgIsInTransaction] at h
    constructor <;> simp [pgCommitTransaction, pgRollbackTransaction, h]
  · intro s s2 a r h
    rcases s with ⟨pool, tc⟩
    rcases a with e | u <;> rcases r with e2 | u2 <;> cases pool <;> cases tc <;>
      simp_all [pgBeginTransaction, pgIsInTransaction] <;> (subst h; rfl)
  · intro s s2 r h
    rcases s with ⟨pool, tc⟩
    rcases r with e | u <;> cases pool <;> cases tc <;>
      simp_all [pgCommitTransaction, pgIsInTransaction] <;> (subst h; rfl)
  · intro s s2 r h
    rcases s with ⟨pool, tc⟩
    rcases r with e | u <;> cases pool <;> cases tc <;>
      simp_all [pgRollbackTransaction, pgIsInTransaction] <;> (subst h; rfl)
  · intro s h
    simp only [mongoIsInTransaction] at h
    simp [mongoBeginTransaction, h]
  · intro s r h
    simp only [mongoIsInTransaction] at h
    constructor <;> simp [mongoCommitTransaction, mongoRollbackTransaction, h]
  · intro s s2 h
    rcases s with ⟨cl, itx, se⟩
    cases cl <;> cases itx <;>
      simp_all [mongoBeginTransaction, mongoIsInTransaction] <;> (subst h; rfl)
  · intro s s2 r h
    rcases s with ⟨cl, itx, se⟩
    rcases r with e | u <;> cases itx <;> cases se <;>
      simp_all [mongoCommitTransaction, mongoIsInTransaction] <;> (subst h; rfl)
  · intro s s2 r h
    rcases s with ⟨cl, itx, se⟩
    rcases r with e | u <;> cases itx <;> cases se <;>
      simp_all [mongoRollbackTransaction, mongoIsInTransaction] <;> (subst h; rfl)
  · intro s
    exact ⟨rfl, rfl, rfl⟩
  · intro s h
    simp [mssqlBeginTransaction, h]
  · intro s
    exact ⟨rfl, rfl, rfl⟩

/-- C1 witness: the enforcing components of the state-machine theorem at
concrete states — Redis rejects a second begin, SQLite's successful begin
sets the flag, MySQL rejects an idle commit, PostgreSQL rejects an idle
rollback, and MongoDB's successful begin sets the flag. -/
theorem c1_transaction_state_machine_witness :
    redisBeginTransaction { inTransaction := true, transactionCommands := [] } =
      .err (.err "Transaction already in progress")
        { inTransaction := true, transactionCommands := [] } ∧
    sqliteIsInTransaction { db := true, inTransaction := true } = true ∧
    mysqlCommitTransaction { pool := true, transactionConnection := false } (.ok ()) =
      .err (.err "No transaction in progress")
        { pool := true, transactionConnection := false } ∧
    pgRollbackTransaction { pool := true, transactionClient := false } (.ok ()) =
      .err (.err "No transaction in progress")
        { pool := true, transactionClient := false } ∧
    mongoIsInTransaction { client := true, inTransaction := true, session := true } = true := by
  refine ⟨?_, ?_, ?_, ?_, ?_⟩
  · exact c1_transaction_state_machine.1 _ rfl
  · exact c1_transaction_state_machine.2.2.2.2.2.2.2.1
      { db := true, inTransaction := false } _ (.ok ()) rfl
  · exact (c1_transaction_state_machine.2.2.2.2.2.2.2.2.2.2.2.1
      { pool := true, transactionConnection := false } (.ok ()) rfl).1
  · exact (c1_transaction_state_machine.2.2.2.2.2.2.2.2.2.2.2.2.2.2.2.2.1
      { pool := true, transactionClient := false } (.ok ()) rfl).2
  · exact c1_transaction_state_machine.2.2.2.2.2.2.2.2.2.2.2.2.2.2.2.2.2.2.2.2.2.2.1
      { client := true, inTransaction := false, session := false } _ rfl

/-- C4, counterexample: a parameters argument that is present but not an
ordered sequence does not necessarily trigger a validation error — the
check is a JS truthiness test, so the falsy non-array value `0` passes
validation and `safeExecuteQuery` proceeds to call the backend. -/
theorem c4_validation_counterexample :
    JSVal.vNum 0 ≠ JSVal.vUndefined ∧
    (JSVal.vNum 0).isArray = false ∧
    safeExecuteQuery pgHandleError (JSVal.vStr "SELECT 1") (JSVal.vNum 0) true
        (.ok ()) (.ok { rows := [], rowCount := 0, fields := [] }) =
      (.ok { rows := [], rowCount := 0, fields := [] }, [BackendCall.execute]) := by
  refine ⟨by simp, rfl, rfl⟩

/-- C4 (amended): for every falsy or non-string query, every query matching
the destructive deny-list, and every parameters argument that is truthy and
not an ordered sequence (falsy non-array values such as `null`, `false`,
`0` or `""` pass the truthiness check), `safeExecuteQuery` throws one of
the three validation errors before any connect or executeQuery call is
made against the backend (the call trace is empty). -/
theorem c4_validation_amended (b : String) (query parameters : JSVal)
    (connected : Bool) (cR : Except JSError Unit) (eR : Except JSError QueryResult)
    (h : query.truthy = false ∨ query.isString = false ∨
      isDangerousQuery query.strVal = true ∨
      (parameters.truthy = true ∧ parameters.isArray = false)) :
    ∃ msg, safeExecuteQuery (handleErrorFor b) query parameters connected cR eR =
      (.error (.err msg), []) ∧
      (msg = "Query must be a non-empty string" ∨
       msg = "Potentially dangerous query detected" ∨
       msg = "Parameters must be an array") := by
  by_cases h1 : (!query.truthy || !query.isString) = true
  · exact ⟨"Query must be a non-empty string",
      by simp [safeExecuteQuery, validateQuery, h1, handleErrorFor], Or.inl rfl⟩
  · have h1f : (!query.truthy || !query.isString) = false := by
      simpa using h1
    by_cases h2 : isDangerousQuery query.strVal = true
    · refine ⟨"Potentially dangerous query detected", ?_, Or.inr (Or.inl rfl)⟩
      simp [safeExecuteQuery, validateQuery, h1f, h2, handleErrorFor]
    · rcases h with hq | hq | hq | ⟨hp1, hp2⟩
      · rw [hq] at h1f; simp at h1f
      · rw [hq] at h1f; simp at h1f
      · exact absurd hq h2
      · refine ⟨"Parameters must be an array", ?_, Or.inr (Or.inr rfl)⟩
        have hv : validateQuery query = .ok () := by
          simp only [validateQuery, h1f, Bool.false_eq_true, if_false]
          simp [show isDangerousQuery query.strVal = false by simpa using h2]
        simp [safeExecuteQuery, hv, validateParameters, hp1, hp2, handleErrorFor]

/-- C4 witness: the amended theorem at a stacked `; DROP TABLE` query —
rejected with the dangerous-query validation error and an empty backend
trace. -/
theorem c4_validation_amended_witness :
    ∃ msg, safeExecuteQuery (handleErrorFor "PostgreSQL")
        (JSVal.vStr "SELECT 1; DROP TABLE users") JSVal.vUndefined true
        (.ok ()) (.ok { rows := [], rowCount := 0, fields := [] }) =
      (.error (.err msg), []) ∧
      (msg = "Query must be a non-empty string" ∨
       msg = "Potentially dangerous query detected" ∨
       msg = "Parameters must be an array") :=
  c4_validation_amended "PostgreSQL" (JSVal.vStr "SELECT 1; DROP TABLE users")
    JSVal.vUndefined true (.ok ()) (.ok { rows := [], rowCount := 0, fields := [] })
    (Or.inr (Or.inr (Or.inl rfl)))

/-- C5, counterexample: `executeBatch` on a disconnected, idle SQLite
adapter (empty operations list): `beginTransaction` fails with "Database
not connected", the catch block's `rollbackTransaction` then itself throws
"No transaction in progress", and that rollback error — not the wrapped
error of the failing step — is what the caller receives. -/
theorem c5_executeBatch_counterexample :
    executeBatch (sqliteAdapterM natTxOk natQOk) []
        { db := false, inTransaction := false } =
      .err (.err "No transaction in progress")
        { db := false, inTransaction := false } ∧
    (sqliteAdapterM natTxOk natQOk).beginTx { db := false, inTransaction := false } =
      .err (.err "Database not connected") { db := false, inTransaction := false } ∧
    sqliteHandleError (.err "Database not connected") = .err "Database not connected" ∧
    ("No transaction in progress" : String) ≠ "Database not connected" := by
  refine ⟨rfl, rfl, rfl, by decide⟩

/-- C5 (amended): `executeBatch` begins a transaction, executes each
operation's query in list order collecting results, commits and returns the
results; a success implies all three phases succeeded.  When any step
(begin, an operation, or commit) fails, `rollbackTransaction` is called: if
that rollback succeeds, the wrapped error of the failing step
(`handleError(error)`) is re-thrown with no partial results; if the
rollback itself throws, the rollback's own error propagates instead. -/
theorem c5_executeBatch_flow (A : AdapterM σ) (ops : List DBOperation) (s : σ) :
    (∀ rs s3, executeBatch A ops s = .ok rs s3 →
      ∃ u1 s1 s2 u3, A.beginTx s = .ok u1 s1 ∧
        runBatchOps A ops s1 [] = .ok rs s2 ∧ A.commitTx s2 = .ok u3 s3) ∧
    (∀ e s1 u s2, A.beginTx s = .err e s1 → A.rollbackTx s1 = .ok u s2 →
      executeBatch A ops s = .err (A.handleErr e) s2) ∧
    (∀ u1 s1 e s2 u s3, A.beginTx s = .ok u1 s1 →
      runBatchOps A ops s1 [] = .err e s2 → A.rollbackTx s2 = .ok u s3 →
      executeBatch A ops s = .err (A.handleErr e) s3) ∧
    (∀ u1 s1 rs s2 e s3 u s4, A.beginTx s = .ok u1 s1 →
      runBatchOps A ops s1 [] = .ok rs s2 → A.commitTx s2 = .err e s3 →
      A.rollbackTx s3 = .ok u s4 →
      executeBatch A ops s = .err (A.handleErr e) s4) ∧
    (∀ e s1 e2 s2, A.beginTx s = .err e s1 → A.rollbackTx s1 = .err e2 s2 →
      executeBatch A ops s = .err e2 s2) ∧
    (∀ u1 s1 e s2 e2 s3, A.beginTx s = .ok u1 s1 →
      runBatchOps A ops s1 [] = .err e s2 → A.rollbackTx s2 = .err e2 s3 →
      executeBatch A ops s = .err e2 s3) := by
  refine ⟨?_, ?_, ?_, ?_, ?_, ?_⟩
  · intro rs s3 h
    unfold executeBatch at h
    cases hb : A.beginTx s with
    | err e s1 =>
      cases hr : A.rollbackTx s1 <;> simp [batchCatch, hb, hr] at h
    | ok u1 s1 =>
      cases hro : runBatchOps A ops s1 [] with
      | err e s2 =>
        cases hr : A.rollbackTx s2 <;> simp [batchCatch, hb, hro, hr] at h
      | ok rs2 s2 =>
        cases hc : A.commitTx s2 with
        | err e s3c =>
          cases hr : A.rollbackTx s3c <;> simp [batchCatch, hb, hro, hc, hr] at h
        | ok u3 s3c =>
          simp [hb, hro, hc] at h
          obtain ⟨h1, h2⟩ := h
          subst h1; subst h2
          exact ⟨u1, s1, s2, u3, rfl, hro, hc⟩
  · intro e s1 u s2 hb hr
    simp [executeBatch, batchCatch, hb, hr]
  · intro u1 s1 e s2 u s3 hb hro hr
    simp [executeBatch, batchCatch, hb, hro, hr]
  · intro u1 s1 rs s2 e s3 u s4 hb hro hc hr
    simp [executeBatch, batchCatch, hb, hro, hc, hr]
  · intro e s1 e2 s2 hb hr
    simp [executeBatch, batchCatch, hb, hr]
  · intro u1 s1 e s2 e2 s3 hb hro hr
    simp [executeBatch, batchCatch, hb, hro, hr]

/-- C5 witness: the flow theorem at a concrete SQLite adapter already in a
transaction — `beginTransaction` fails, the rollback succeeds, and the
wrapped begin error is re-thrown. -/
theorem c5_executeBatch_flow_witness :
    executeBatch (sqliteAdapterM natTxOk natQOk) []
        { db := true, inTransaction := true } =
      .err (.err "Transaction already in progress")
        { db := true, inTransaction := false } := by
  have h := (c5_executeBatch_flow (sqliteAdapterM natTxOk natQOk) []
      { db := true, inTransaction := true }).2.1
      (JSError.err "Transaction already in progress")
      { db := true, inTransaction := true } ()
      { db := true, inTransaction := false } rfl rfl
  simpa [sqliteAdapterM, sqliteHandleError, handleErrorFor] using h

/-- C8, counterexample: with the empty string as a connection name the
policy fails.  After `addConnection("", …)` the current pointer is `""`; a
current connection therefore exists, yet a subsequent `addConnection("b",
…)` steals currency (the `!this.currentConnection` truthiness check treats
`""` as absent).  Likewise `removeConnection("b")` of the current entry
with `("", …)` still registered clears the pointer to null instead of
reassigning it (`firstKey || null` collapses `""` to null), leaving a
non-empty registry with no current connection. -/
theorem c8_current_pointer_counterexample :
    addConnection ({ connections := [], currentConnection := none } : Manager Nat)
        "" 1 (.ok ()) =
      .ok () { connections := [("", 1)], currentConnection := some "" } ∧
    addConnection ({ connections := [("", 1)], currentConnection := some "" } :
        Manager Nat) "b" 2 (.ok ()) =
      .ok () { connections := [("", 1), ("b", 2)], currentConnection := some "b" } ∧
    (some "" : Option String) ≠ none ∧
    removeConnection ({ connections := [("", 1), ("b", 2)],
                        currentConnection := some "b" } : Manager Nat) "b" (.ok ()) =
      .ok () { connections := [("", 1)], currentConnection := none } ∧
    [(("" : String), 1)] ≠ ([] : List (String × Nat)) := by
  refine ⟨rfl, rfl, by decide, rfl, by decide⟩

/-- C8 (amended): restricted to non-empty connection names (the truthiness
checks treat `""` as absent), the policy holds: a successful
`addConnection` makes the new entry current exactly when the current
pointer was null (so the first-registered connection stays current),
`removeConnection` of the current entry reassigns current to the first
remaining entry in the map's iteration order or clears it when none
remain, and `getConnection()` with no name resolves the current entry. -/
theorem c8_current_pointer_amended (m : Manager α) :
    (∀ (name : String) (adapter : α) (u : Unit) (m2 : Manager α),
      name ≠ "" → m.currentConnection ≠ some "" →
      addConnection m name adapter (.ok ()) = .ok u m2 →
      m2.currentConnection =
        (if m.currentConnection = none then some name else m.currentConnection) ∧
      m2.connections = mapSet m.connections name adapter) ∧
    (∀ (name : String) (a : α), (∀ p ∈ m.connections, p.1 ≠ "") →
      mapGet m.connections name = some a → m.currentConnection = some name →
      removeConnection m name (.ok ()) =
        .ok () { connections := mapDelete m.connections name,
                 currentConnection :=
                   (mapDelete m.connections name).head?.map (fun p => p.1) }) ∧
    (∀ c : String, m.currentConnection = some c → c ≠ "" →
      getConnection m none = mapGet m.connections c) := by
  refine ⟨?_, ?_, ?_⟩
  · intro name adapter u m2 hn hc h
    simp only [addConnection] at h
    injection h with h1 h2
    subst h2
    refine ⟨?_, rfl⟩
    cases hcc : m.currentConnection with
    | none => simp [optStrFalsy, hcc]
    | some s =>
      have hs : s ≠ "" := by
        intro he
        exact hc (by rw [hcc, he])
      have hse : s.isEmpty = false := by
        cases he : s.isEmpty
        · rfl
        · exact absurd ((String.isEmpty_iff _).mp he) hs
      simp [optStrFalsy, hcc, hse]
  · intro name a hk hget hcur
    simp only [removeConnection, hget, hcur]
    have : jsOrNullStr ((mapDelete m.connections name).head?.map (fun p => p.1)) =
        (mapDelete m.connections name).head?.map (fun p => p.1) := by
      cases hdl : mapDelete m.connections name with
      | nil => rfl
      | cons p rest =>
        have hp : p ∈ m.connections := by
          have hmem : p ∈ mapDelete m.connections name := by
            rw [hdl]; exact List.mem_cons_self p rest
          exact (List.mem_filter.mp hmem).1
        have hp1 : p.1 ≠ "" := hk p hp
        have hse : p.1.isEmpty = false := by
          cases he : p.1.isEmpty
          · rfl
          · exact absurd ((String.isEmpty_iff _).mp he) hp1
        simp [jsOrNullStr, hse]
    simp [this]
  · intro c hcur hc
    have hse : c.isEmpty = false := by
      cases he : c.isEmpty
      · rfl
      · exact absurd ((String.isEmpty_iff _).mp he) hc
    simp [getConnection, hcur, hse]

/-- C8 witness: the amended policy at a concrete registry holding `a` and
`b` with `a` current — adding `c` leaves `a` current, removing `a`
reassigns current to the first remaining entry, and `getConnection()` with
no name resolves the current entry. -/
theorem c8_current_pointer_amended_witness :
    ({ connections := [("a", 1), ("b", 2), ("c", 3)],
       currentConnection := some "a" } : Manager Nat).currentConnection =
      (if (some "a" : Option String) = none then some "c" else some "a") ∧
    removeConnection ({ connections := [("a", 1), ("b", 2)],
                        currentConnection := some "a" } : Manager Nat) "a" (.ok ()) =
      .ok () { connections := mapDelete [("a", 1), ("b", 2)] "a",
               currentConnection :=
                 (mapDelete [("a", 1), ("b", 2)] "a").head?.map (fun p => p.1) } ∧
    getConnection ({ connections := [("a", 1), ("b", 2)],
                     currentConnection := some "a" } : Manager Nat) none =
      mapGet [("a", 1), ("b", 2)] "a" := by
  refine ⟨?_, ?_, ?_⟩
  · exact ((c8_current_pointer_amended
      ({ connections := [("a", 1), ("b", 2)], currentConnection := some "a" } :
        Manager Nat)).1 "c" 3 ()
      { connections := [("a", 1), ("b", 2), ("c", 3)],
        currentConnection := some "a" }
      (by decide) (by decide) rfl).1
  · exact (c8_current_pointer_amended _).2.1 "a" 1 (by decide) rfl rfl
  · exact (c8_current_pointer_amended _).2.2 "a" rfl (by decide)

/-- Helper: the substitution loop consumes exactly one leading parameter
per `?` argument token (saturating once the array is exhausted). -/
theorem redisSubstLoop_snd (args : List String) :
    ∀ ps : List JSVal, (redisSubstLoop args ps).2 = ps.drop (args.count "?") := by
  induction args with
  | nil => intro ps; simp [redisSubstLoop]
  | cons a as ih =>
    intro ps
    by_cases ha : a = "?"
    · subst ha
      cases ps with
      | nil => simp [redisSubstLoop, ih, List.count_cons]
      | cons p ps2 => simp [redisSubstLoop, ih, List.count_cons]
    · simp [redisSubstLoop, ha, ih, List.count_cons]

/-- C10: when the command string has a `?` among its argument tokens (the
tokens after the command, which are the ones the substitution scans) and a
non-empty parameters array is passed, `RedisAdapter.executeQuery` consumes
elements from the front of the caller's array via `shift` — what remains is
a strictly shorter suffix (`drop` of one element per `?` token); every
other adapter leaves its parameters argument unmodified. -/
theorem c10_redis_params_mutation (query : String) (ps : List JSVal)
    (h1 : ps ≠ []) (h2 : "?" ∈ redisArgs query) :
    (∃ ps2, redisParamsAfter query (some ps) = some ps2 ∧
      ps2 = ps.drop ((redisArgs query).count "?") ∧
      ps2.length < ps.length) ∧
    (∀ qs : Option (List JSVal),
      cassandraParamsAfter qs = qs ∧ mysqlParamsAfter qs = qs ∧
      pgParamsAfter qs = qs ∧ sqliteParamsAfter qs = qs ∧
      mongoParamsAfter qs = qs ∧ dynamoParamsAfter qs = qs ∧
      mssqlParamsAfter qs = qs) := by
  constructor
  · have hlen : 0 < ps.length := List.length_pos.mpr h1
    have hcount : 0 < (redisArgs query).count "?" := List.count_pos_iff.mpr h2
    refine ⟨(redisSubstLoop (redisArgs query) ps).2, ?_, redisSubstLoop_snd _ ps, ?_⟩
    · simp [redisParamsAfter, redisParamSubst, hlen]
    · rw [redisSubstLoop_snd]
      rw [List.length_drop]
      omega
  · intro qs
    exact ⟨rfl, rfl, rfl, rfl, rfl, rfl, rfl⟩

/-- C10 witness: `SET key ?` with two parameters — the substitution leaves
the caller's array as the one-element suffix. -/
theorem c10_redis_params_mutation_witness :
    ∃ ps2, redisParamsAfter "SET key ?" (some [JSVal.vStr "v", JSVal.vNum 1]) =
        some ps2 ∧
      ps2 = [JSVal.vStr "v", JSVal.vNum 1].drop ((redisArgs "SET key ?").count "?") ∧
      ps2.length < [JSVal.vStr "v", JSVal.vNum 1].length :=
  (c10_redis_params_mutation "SET key ?" [JSVal.vStr "v", JSVal.vNum 1]
    (by simp) (by decide)).1

end PineMCP
